import Mathlib

/-!
Shallow embedding of the WildVision observations backend (app.py): a Flask
service exposing add / list / get-by-id / delete-by-id over a MongoDB
collection of wildlife observations, with a shared-secret header check.

Modelling choices:
* Python values reaching the handlers (parsed JSON and stored documents) are
  modelled by the inductive type Val.  JSON arrays and objects appearing as
  field values are collapsed into the constructor vrepr carrying their
  textual repr: the handlers never inspect their structure, only pass them to
  str() (which yields the repr) or to int()/float() (which raise TypeError).
* datetime.utcnow() is modelled as an abstract tick (a Nat) supplied to the
  handler; datetime.isoformat is modelled abstractly by datetimeIsoformat.
  The handlers only ever append "Z" to it, which is what the claims are about.
* A Python float is modelled as a Rat.  The handlers perform no floating-point
  arithmetic: float values are only coerced (identity on floats, decimal
  parsing on strings) and stored, so exactness of Rat is faithful here.
  The textual repr of a float (only ever used when a float is fed to str())
  is modelled abstractly by floatRepr.
* The MongoDB collection is modelled as a list of (id, document) pairs where
  id is the canonical textual form of the generated ObjectId (24 lowercase
  hex characters) and the document is the key/value list built by
  add_observation.  insert_one appends; the generated ObjectId is supplied
  to the handler as a parameter (pymongo generates it client-side).
  ObjectId(s) on a string accepts exactly 24 hex characters and normalises
  to lowercase; anything else raises InvalidId (an Exception, caught by the
  handlers' try/except).  delete_one removes the first match and reports
  deleted_count = 0 exactly when nothing matched; find_one returns the first
  match.
* int() on a string accepts an optionally signed digit string surrounded by
  whitespace; float() on a string accepts an optionally signed decimal
  number.  (Pythonic extras not exercised by this service's contract, such
  as underscores in numeric literals, exponents, inf/nan, are outside the
  model; no claim depends on them.)
-/

namespace ObservationsBackend

/-- A Python value as seen by the handlers: a JSON scalar, a datetime
(in stored documents), or an opaque compound JSON value carried by its
textual repr. -/
inductive Val where
  | vnull
  | vbool (b : Bool)
  | vint (n : Int)
  | vflo (q : Rat)
  | vstr (s : String)
  | vtime (t : Nat)
  | vrepr (r : String)
deriving DecidableEq, Repr

/-- A JSON request body parsed by request.get_json(): a key/value mapping. -/
abbrev Payload := List (String × Val)

/-- A stored document (the observation dict built by add_observation). -/
abbrev Doc := List (String × Val)

/-- The observations collection: canonical id string paired with document. -/
abbrev Store := List (String × Doc)

/-- Abstract model of the textual repr of a Python float. -/
def floatRepr (q : Rat) : String := toString q

/-- Abstract model of datetime.isoformat() on an instant. -/
def datetimeIsoformat (t : Nat) : String := toString t

/-- Both-ends whitespace removal on a character list (the semantics of
Python str.strip with no argument). -/
def trimChars (l : List Char) : List Char :=
  ((l.dropWhile Char.isWhitespace).reverse.dropWhile Char.isWhitespace).reverse

/-- Python str.strip(): whitespace removed from both ends. -/
def pyStrip (s : String) : String := ⟨trimChars s.data⟩

/-- Python str(x): total, never raises. -/
def pyStr : Val → String
  | .vnull => "None"
  | .vbool true => "True"
  | .vbool false => "False"
  | .vint n => toString n
  | .vflo q => floatRepr q
  | .vstr s => s
  | .vtime t => datetimeIsoformat t
  | .vrepr r => r

/-- Value of a nonempty digit string. -/
def digitsToNat (l : List Char) : Nat :=
  l.foldl (fun a c => a * 10 + (c.toNat - 48)) 0

/-- Leading sign of a numeric literal, as int()/float() accept it. -/
def splitSign : List Char → Int × List Char
  | '-' :: r => (-1, r)
  | '+' :: r => (1, r)
  | r => (1, r)

/-- int() on a string: optional surrounding whitespace, optional sign,
then a nonempty digit string. -/
def parseIntStr (s : String) : Option Int :=
  let t := trimChars s.data
  let (sign, ds) := splitSign t
  if !ds.isEmpty && ds.all Char.isDigit then
    some (sign * (digitsToNat ds : Int))
  else none

/-- Truncation of a rational toward zero, as Python int(float) does. -/
def ratTrunc (q : Rat) : Int := Int.tdiv q.num q.den

/-- Python int(x): succeeds on ints, floats (truncating), numeric strings
and bools; raises TypeError/ValueError (modelled as none) otherwise. -/
def pyInt : Val → Option Int
  | .vint n => some n
  | .vflo q => some (ratTrunc q)
  | .vstr s => parseIntStr s
  | .vbool b => some (if b then 1 else 0)
  | _ => none

/-- float() on a string: optional surrounding whitespace, optional sign,
then digits with an optional decimal point (at least one digit overall). -/
def parseFloatStr (s : String) : Option Rat :=
  let t := trimChars s.data
  let (sign, body) := splitSign t
  let ip := body.takeWhile (fun c => c != '.')
  match body.dropWhile (fun c => c != '.') with
  | [] =>
    if !ip.isEmpty && ip.all Char.isDigit then
      some ((sign : Rat) * (digitsToNat ip : Rat))
    else none
  | _ :: fp =>
    if fp.all (fun c => c != '.') && decide (0 < ip.length + fp.length) &&
        ip.all Char.isDigit && fp.all Char.isDigit then
      some ((sign : Rat) *
        ((digitsToNat ip : Rat) + (digitsToNat fp : Rat) / ((10 : Rat) ^ fp.length)))
    else none

/-- Python float(x): succeeds on floats, ints, decimal strings and bools;
raises (modelled as none) otherwise. -/
def pyFloat : Val → Option Rat
  | .vflo q => some q
  | .vint n => some (n : Rat)
  | .vstr s => parseFloatStr s
  | .vbool b => some (if b then 1 else 0)
  | _ => none

/-- A hexadecimal character, as ObjectId accepts them. -/
def isHexChar (c : Char) : Bool :=
  c.isDigit || ('a' ≤ c && c ≤ 'f') || ('A' ≤ c && c ≤ 'F')

/-- ASCII lowercasing of one character. -/
def charLower (c : Char) : Char :=
  if 'A' ≤ c && c ≤ 'Z' then Char.ofNat (c.toNat + 32) else c

/-- bson ObjectId(s) on a string: exactly 24 hex characters, normalised to
the canonical lowercase form; anything else raises InvalidId. -/
def parseObjectId (s : String) : Option String :=
  if s.data.length = 24 && s.data.all isHexChar then
    some ⟨s.data.map charLower⟩
  else none

/-- The uniform error envelope used by every error return in app.py. -/
inductive J where
  | prim (v : Val)
  | obj (fs : List (String × J))
  | arr (xs : List J)

/-- Shorthand for a JSON string leaf. -/
def J.s (s : String) : J := .prim (.vstr s)

/-- An HTTP response: status code plus JSON body. -/
structure HttpResp where
  code : Nat
  body : J

/-- jsonify body of an error return. -/
def errBody (msg : String) : J :=
  .obj [("status", J.s "error"), ("message", J.s msg)]

/-- jsonify body of a success return carrying only a message. -/
def okBody (msg : String) : J :=
  .obj [("status", J.s "success"), ("message", J.s msg)]

/-- The 401 response produced by require_api_key. -/
def unauthorizedResp : HttpResp := ⟨401, errBody "Unauthorized"⟩

/-- The condition under which require_api_key blocks the request:
the header is absent or empty (falsy), or differs from API_KEY.  The
comparison is between the header string and the configured key, which may
itself be None (os.getenv of an absent variable). -/
def keyBlocked (apiKey key : Option String) : Bool :=
  match key with
  | none => true
  | some k => k == "" || !(apiKey == some k)

/-- The decorator require_api_key: some 401 response when the request is
blocked, none when the wrapped handler runs. -/
def require_api_key (apiKey key : Option String) : Option HttpResp :=
  if keyBlocked apiKey key then some unauthorizedResp else none

/-- The required_fields list of add_observation. -/
def required_fields : List String :=
  ["species", "gender", "quantity", "latitude", "longitude", "userId"]

/-- Python str.join with separator ", ", as used for the missing-fields
message. -/
def joinComma : List String → String
  | [] => ""
  | [s] => s
  | s :: r => s ++ ", " ++ joinComma r

/-- The observation document built by add_observation (lines 70-78). -/
def mkObservation (species gender : String) (quantity : Int)
    (latitude longitude : Rat) (user_id : String) (now : Nat) : Doc :=
  [("species", .vstr species),
   ("gender", .vstr gender),
   ("quantity", .vint quantity),
   ("latitude", .vflo latitude),
   ("longitude", .vflo longitude),
   ("userId", .vstr user_id),
   ("timestamp", .vtime now)]

/-- Body of the 201 response of add_observation. -/
def addSuccessBody (newId : String) : J :=
  .obj [("status", J.s "success"),
        ("message", J.s "Observation added successfully"),
        ("id", J.s newId)]

/-- POST /api/add_observation.  Parameters: the configured API_KEY, the
x-api-key header, the parsed JSON body (none when absent/null), the current
UTC instant, the ObjectId pymongo generates for the insert, and the
collection state.  Returns the response and the new collection state. -/
def add_observation (apiKey key : Option String) (data : Option Payload)
    (now : Nat) (newId : String) (store : Store) : HttpResp × Store :=
  match require_api_key apiKey key with
  | some r => (r, store)
  | none =>
    match data with
    | none => (⟨400, errBody "No data provided"⟩, store)
    | some d =>
      if d.isEmpty then (⟨400, errBody "No data provided"⟩, store)
      else
        let missing_fields := required_fields.filter (fun f => (d.lookup f).isNone)
        if missing_fields.isEmpty then
          let species := pyStrip (pyStr ((d.lookup "species").getD .vnull))
          let gender := pyStrip (pyStr ((d.lookup "gender").getD .vnull))
          match pyInt ((d.lookup "quantity").getD .vnull) with
          | none => (⟨400, errBody "Invalid data types provided"⟩, store)
          | some quantity =>
            match pyFloat ((d.lookup "latitude").getD .vnull) with
            | none => (⟨400, errBody "Invalid data types provided"⟩, store)
            | some latitude =>
              match pyFloat ((d.lookup "longitude").getD .vnull) with
              | none => (⟨400, errBody "Invalid data types provided"⟩, store)
              | some longitude =>
                let user_id := pyStrip (pyStr ((d.lookup "userId").getD .vnull))
                if gender ∉ (["Male", "Female", "Unknown"] : List String) then
                  (⟨400, errBody "Invalid gender value"⟩, store)
                else if quantity < 1 then
                  (⟨400, errBody "Quantity must be at least 1"⟩, store)
                else
                  (⟨201, addSuccessBody newId⟩,
                   store ++ [(newId, mkObservation species gender quantity
                                       latitude longitude user_id now)])
        else
          (⟨400, errBody ("Missing fields: " ++ joinComma missing_fields)⟩, store)

/-- The per-document rendering shared verbatim by get_observations (lines
92-93) and get_observation (lines 105-106): the _id becomes its canonical
string and the timestamp becomes isoformat plus "Z".  When the stored
timestamp is not a datetime the attribute access raises (modelled as none),
which the surrounding try/except turns into a 500. -/
def renderObs (id : String) (doc : Doc) : Option J :=
  match doc.lookup "timestamp" with
  | some (.vtime t) =>
    some (.obj (("_id", J.s id) ::
      doc.map (fun kv =>
        (kv.1, if kv.1 = "timestamp"
               then J.s (datetimeIsoformat t ++ "Z")
               else J.prim kv.2))))
  | _ => none

/-- The successful value of renderObs, written out: used to state what the
rendering looks like. -/
def renderedDoc (id : String) (doc : Doc) (t : Nat) : J :=
  .obj (("_id", J.s id) ::
    doc.map (fun kv =>
      (kv.1, if kv.1 = "timestamp"
             then J.s (datetimeIsoformat t ++ "Z")
             else J.prim kv.2)))

/-- GET /api/get_observations. -/
def get_observations (apiKey key : Option String) (store : Store) : HttpResp :=
  match require_api_key apiKey key with
  | some r => r
  | none =>
    match store.mapM (fun e => renderObs e.1 e.2) with
    | some objs =>
      ⟨200, .obj [("status", J.s "success"), ("observations", .arr objs)]⟩
    | none => ⟨500, errBody "Failed to fetch observations"⟩

/-- GET /api/get_observation/(id). -/
def get_observation (apiKey key : Option String) (id : String)
    (store : Store) : HttpResp :=
  match require_api_key apiKey key with
  | some r => r
  | none =>
    match parseObjectId id with
    | none => ⟨500, errBody "Failed to fetch observation"⟩
    | some oid =>
      match store.find? (fun e => e.1 == oid) with
      | none => ⟨404, errBody "Observation not found"⟩
      | some e =>
        match renderObs e.1 e.2 with
        | none => ⟨500, errBody "Failed to fetch observation"⟩
        | some j =>
          ⟨200, .obj [("status", J.s "success"), ("observation", j)]⟩

/-- DELETE /api/delete_observation/(id). -/
def delete_observation (apiKey key : Option String) (id : String)
    (store : Store) : HttpResp × Store :=
  match require_api_key apiKey key with
  | some r => (r, store)
  | none =>
    match parseObjectId id with
    | none => (⟨500, errBody "Failed to delete observation"⟩, store)
    | some oid =>
      match store.find? (fun e => e.1 == oid) with
      | none => (⟨404, errBody "Observation not found"⟩, store)
      | some _ =>
        (⟨200, okBody "Observation deleted successfully"⟩,
         store.eraseP (fun e => e.1 == oid))

/-- GET /. The route carries no require_api_key decorator: the handler
receives the request (hence the header) but never consults it. -/
def home (_apiKey _key : Option String) : HttpResp :=
  ⟨200, .obj [("message", J.s "Welcome to the WildVision Observations Backend!"),
              ("endpoints", .obj
                 [("Add Observation", J.s "/api/add_observation (POST)"),
                  ("Get All Observations", J.s "/api/get_observations (GET)"),
                  ("Get Single Observation", J.s "/api/get_observation/<id> (GET)"),
                  ("Delete Observation", J.s "/api/delete_observation/<id> (DELETE)")])]⟩

/-! ## Helper lemmas -/

/-- Every protected handler returns the 401 envelope, unchanged state, when
the key check blocks the request. -/
lemma handlers_unauthorized (apiKey key : Option String) (data : Option Payload)
    (now : Nat) (newId id : String) (store : Store)
    (h : keyBlocked apiKey key = true) :
    add_observation apiKey key data now newId store = (unauthorizedResp, store) ∧
    get_observations apiKey key store = unauthorizedResp ∧
    get_observation apiKey key id store = unauthorizedResp ∧
    delete_observation apiKey key id store = (unauthorizedResp, store) := by
  simp [add_observation, get_observations, get_observation, delete_observation,
        require_api_key, h]

/-- After erasing the first entry with a given id from a store whose ids are
distinct, no entry with that id remains. -/
lemma find?_eraseP_eq_none (store : Store) (oid : String)
    (hnd : (store.map Prod.fst).Nodup) :
    (store.eraseP (fun e => e.1 == oid)).find? (fun e => e.1 == oid) = none := by
  induction store with
  | nil => rfl
  | cons e l ih =>
    rw [List.map_cons, List.nodup_cons] at hnd
    obtain ⟨he, hl⟩ := hnd
    by_cases hp : (e.1 == oid) = true
    · rw [List.eraseP_cons, hp, cond_true, List.find?_eq_none]
      intro x hx hpx
      have hx1 : x.1 = oid := by simpa using hpx
      have he1 : e.1 = oid := by simpa using hp
      apply he
      rw [he1, ← hx1]
      exact List.mem_map_of_mem Prod.fst hx
    · have hp' : (e.1 == oid) = false := by simpa using hp
      rw [List.eraseP_cons, hp', cond_false, List.find?_cons, hp']
      exact ih hl

/-! ## Claims -/

/-- C2 counterexample: the claim quantifies over all five routes including
GET /, but the home route carries no key check: with the header absent it
answers 200, not 401. -/
theorem home_no_auth_counterexample :
    (home (some "secret") none).code = 200 ∧ (home (some "secret") none).code ≠ 401 := by
  constructor
  · rfl
  · decide

/-- C2 (amended): every request to one of the four /api endpoints whose
x-api-key header is absent, empty, or different from the configured secret
is answered 401 with the error/Unauthorized envelope and no state change;
GET / is unprotected and answers 200 regardless. -/
theorem api_endpoints_unauthorized (apiKey key : Option String)
    (data : Option Payload) (now : Nat) (newId id : String) (store : Store)
    (h : keyBlocked apiKey key = true) :
    add_observation apiKey key data now newId store = (unauthorizedResp, store) ∧
    get_observations apiKey key store = unauthorizedResp ∧
    get_observation apiKey key id store = unauthorizedResp ∧
    delete_observation apiKey key id store = (unauthorizedResp, store) ∧
    (home apiKey key).code = 200 := by
  refine ⟨?_, ?_, ?_, ?_, rfl⟩ <;>
    have := handlers_unauthorized apiKey key data now newId id store h
  · exact this.1
  · exact this.2.1
  · exact this.2.2.1
  · exact this.2.2.2

/-- C2 witness at a concrete blocked request. -/
theorem api_endpoints_unauthorized_witness :
    add_observation (some "s") (some "wrong") (some [("species", .vstr "Deer")])
        0 "0123456789abcdef01234567" [] = (unauthorizedResp, []) ∧
    get_observations (some "s") (some "wrong") [] = unauthorizedResp ∧
    get_observation (some "s") (some "wrong") "x" [] = unauthorizedResp ∧
    delete_observation (some "s") (some "wrong") "x" [] = (unauthorizedResp, []) ∧
    (home (some "s") (some "wrong")).code = 200 :=
  api_endpoints_unauthorized (some "s") (some "wrong")
    (some [("species", .vstr "Deer")]) 0 "0123456789abcdef01234567" "x" []
    (by decide)

/-- C9: when the configured key is unset (os.getenv returned None) or the
empty string, the check blocks every request — whatever header the client
sends, including an empty header against an empty secret — so all four
protected endpoints answer 401. -/
theorem unset_api_key_rejects_all (apiKey key : Option String)
    (data : Option Payload) (now : Nat) (newId id : String) (store : Store)
    (h : apiKey = none ∨ apiKey = some "") :
    keyBlocked apiKey key = true ∧
    add_observation apiKey key data now newId store = (unauthorizedResp, store) ∧
    get_observations apiKey key store = unauthorizedResp ∧
    get_observation apiKey key id store = unauthorizedResp ∧
    delete_observation apiKey key id store = (unauthorizedResp, store) := by
  have hb : keyBlocked apiKey key = true := by
    rcases h with h | h <;> subst h <;> rcases key with _ | k
    · rfl
    · simp [keyBlocked]
    · rfl
    · by_cases hk : k = "" <;> simp [keyBlocked, hk]
      exact fun h => absurd h.symm hk
  exact ⟨hb, handlers_unauthorized apiKey key data now newId id store hb⟩

/-- C9 witness: empty configured secret against an empty header value. -/
theorem unset_api_key_rejects_all_witness :
    keyBlocked (some "") (some "") = true ∧
    add_observation (some "") (some "") (some [("species", .vstr "Deer")])
        0 "0123456789abcdef01234567" [] = (unauthorizedResp, []) ∧
    get_observations (some "") (some "") [] = unauthorizedResp ∧
    get_observation (some "") (some "") "x" [] = unauthorizedResp ∧
    delete_observation (some "") (some "") "x" [] = (unauthorizedResp, []) :=
  unset_api_key_rejects_all (some "") (some "")
    (some [("species", .vstr "Deer")]) 0 "0123456789abcdef01234567" "x" []
    (Or.inr rfl)

/-- C3: an authorized add whose nonempty payload misses at least one of the
six required keys is answered 400 with a message naming exactly the missing
keys, comma-joined in their canonical order, and the store is unchanged. -/
theorem add_missing_fields_error (apiKey : Option String) (k : String)
    (d : Payload) (now : Nat) (newId : String) (store : Store)
    (hk : keyBlocked apiKey (some k) = false)
    (hne : d ≠ [])
    (hmiss : required_fields.filter (fun f => (d.lookup f).isNone) ≠ []) :
    add_observation apiKey (some k) (some d) now newId store =
      (⟨400, errBody ("Missing fields: " ++
          joinComma (required_fields.filter (fun f => (d.lookup f).isNone)))⟩,
       store) := by
  have h1 : d.isEmpty = false := by simpa [List.isEmpty_iff] using hne
  have h2 : (required_fields.filter (fun f => (d.lookup f).isNone)).isEmpty = false := by
    simpa [List.isEmpty_iff] using hmiss
  simp [add_observation, require_api_key, hk, h1, h2]

/-- C3 witness: a payload with only species present is answered 400 naming
the other five keys. -/
theorem add_missing_fields_error_witness :
    add_observation (some "s") (some "s") (some [("species", .vstr "Deer")])
        0 "0123456789abcdef01234567" [] =
      (⟨400, errBody "Missing fields: gender, quantity, latitude, longitude, userId"⟩,
       []) :=
  add_missing_fields_error (some "s") "s" [("species", .vstr "Deer")]
    0 "0123456789abcdef01234567" [] (by decide) (by decide) (by decide)

/-- C7: an authorized getById or deleteById on a malformed identifier (one
ObjectId rejects) is answered with the 500 error envelope of the handler's
except branch, and deleteById removes nothing. -/
theorem malformed_id_error (apiKey : Option String) (k id : String)
    (store : Store)
    (hk : keyBlocked apiKey (some k) = false)
    (hbad : parseObjectId id = none) :
    get_observation apiKey (some k) id store =
      ⟨500, errBody "Failed to fetch observation"⟩ ∧
    delete_observation apiKey (some k) id store =
      (⟨500, errBody "Failed to delete observation"⟩, store) := by
  constructor
  · simp [get_observation, require_api_key, hk, hbad]
  · simp [delete_observation, require_api_key, hk, hbad]

/-- C7 witness at the identifier string "not-an-objectid". -/
theorem malformed_id_error_witness :
    get_observation (some "s") (some "s") "not-an-objectid" [] =
      ⟨500, errBody "Failed to fetch observation"⟩ ∧
    delete_observation (some "s") (some "s") "not-an-objectid" [] =
      (⟨500, errBody "Failed to delete observation"⟩, []) :=
  malformed_id_error (some "s") "s" "not-an-objectid" [] (by decide) (by decide)

/-- C6: deleteById answers 404 exactly when no stored entry carries the
identifier (so it removes nothing), answers 200 when one does, and — for a
store with distinct ids — repeating a successful delete answers 404 with the
store left as the first delete left it: delete is not idempotent. -/
theorem delete_not_idempotent :
    (∀ (apiKey : Option String) (k id : String) (store : Store) (oid : String),
       keyBlocked apiKey (some k) = false →
       parseObjectId id = some oid →
       store.find? (fun e => e.1 == oid) = none →
       delete_observation apiKey (some k) id store =
         (⟨404, errBody "Observation not found"⟩, store)) ∧
    (∀ (apiKey : Option String) (k id : String) (store : Store) (oid : String)
       (e : String × Doc),
       keyBlocked apiKey (some k) = false →
       parseObjectId id = some oid →
       store.find? (fun e => e.1 == oid) = some e →
       delete_observation apiKey (some k) id store =
         (⟨200, okBody "Observation deleted successfully"⟩,
          store.eraseP (fun e => e.1 == oid))) ∧
    (∀ (apiKey : Option String) (k id : String) (store : Store) (oid : String),
       keyBlocked apiKey (some k) = false →
       parseObjectId id = some oid →
       (store.map Prod.fst).Nodup →
       (delete_observation apiKey (some k) id store).1.code = 200 →
       delete_observation apiKey (some k) id
           (delete_observation apiKey (some k) id store).2 =
         (⟨404, errBody "Observation not found"⟩,
          (delete_observation apiKey (some k) id store).2)) := by
  refine ⟨?_, ?_, ?_⟩
  · intro apiKey k id store oid hk hp hf
    simp [delete_observation, require_api_key, hk, hp, hf]
  · intro apiKey k id store oid e hk hp hf
    simp [delete_observation, require_api_key, hk, hp, hf]
  · intro apiKey k id store oid hk hp hnd hcode
    cases hf : store.find? (fun e => e.1 == oid) with
    | none =>
      exfalso
      rw [show delete_observation apiKey (some k) id store =
            (⟨404, errBody "Observation not found"⟩, store) by
          simp [delete_observation, require_api_key, hk, hp, hf]] at hcode
      simp at hcode
    | some e =>
      have h2 : (delete_observation apiKey (some k) id store).2 =
          store.eraseP (fun e => e.1 == oid) := by
        simp [delete_observation, require_api_key, hk, hp, hf]
      rw [h2]
      have hnone := find?_eraseP_eq_none store oid hnd
      simp [delete_observation, require_api_key, hk, hp, hnone]

/-- C6 witness: deleting the only stored observation answers 200; deleting
it again answers 404. -/
theorem delete_not_idempotent_witness :
    delete_observation (some "s") (some "s") "0123456789abcdef01234567"
        [("0123456789abcdef01234567",
          mkObservation "Deer" "Male" 2 45 (-70) "u1" 0)] =
      (⟨200, okBody "Observation deleted successfully"⟩, []) ∧
    delete_observation (some "s") (some "s") "0123456789abcdef01234567" [] =
      (⟨404, errBody "Observation not found"⟩, []) :=
  ⟨delete_not_idempotent.2.1 (some "s") "s" "0123456789abcdef01234567"
      [("0123456789abcdef01234567", mkObservation "Deer" "Male" 2 45 (-70) "u1" 0)]
      "0123456789abcdef01234567"
      ("0123456789abcdef01234567", mkObservation "Deer" "Male" 2 45 (-70) "u1" 0)
      (by decide) rfl rfl,
   delete_not_idempotent.1 (some "s") "s" "0123456789abcdef01234567" []
      "0123456789abcdef01234567" (by decide) rfl rfl⟩

/-- The success path of add_observation: with the key accepted, all six
fields present, quantity coercing to at least 1, both coordinates coercing
to floats and the trimmed gender in the enumeration, the handler answers 201
and appends exactly the document built from the coerced values and the
service clock. -/
lemma add_observation_success (apiKey : Option String) (k : String)
    (d : Payload) (now : Nat) (newId : String) (store : Store)
    (q : Int) (la lo : Rat)
    (hk : keyBlocked apiKey (some k) = false)
    (hall : ∀ f ∈ required_fields, (d.lookup f).isSome)
    (hq : pyInt ((d.lookup "quantity").getD .vnull) = some q)
    (hq1 : 1 ≤ q)
    (hla : pyFloat ((d.lookup "latitude").getD .vnull) = some la)
    (hlo : pyFloat ((d.lookup "longitude").getD .vnull) = some lo)
    (hg : pyStrip (pyStr ((d.lookup "gender").getD .vnull)) ∈
            (["Male", "Female", "Unknown"] : List String)) :
    add_observation apiKey (some k) (some d) now newId store =
      (⟨201, addSuccessBody newId⟩,
       store ++ [(newId, mkObservation
          (pyStrip (pyStr ((d.lookup "species").getD .vnull)))
          (pyStrip (pyStr ((d.lookup "gender").getD .vnull)))
          q la lo
          (pyStrip (pyStr ((d.lookup "userId").getD .vnull))) now)]) := by
  have hne : d ≠ [] := by
    intro h
    subst h
    have := hall "species" (by simp [required_fields])
    simp at this
  have h1 : d.isEmpty = false := by simpa [List.isEmpty_iff] using hne
  have h2 : required_fields.filter (fun f => (d.lookup f).isNone) = [] := by
    rw [List.filter_eq_nil_iff]
    intro f hf
    have := hall f hf
    cases hopt : d.lookup f <;> simp_all
  have hq0 : ¬ (q < 1) := not_lt.mpr hq1
  simp [add_observation, require_api_key, hk, h1, h2, hq, hla, hlo, hg, hq0]

/-- No entry of the base store carries the fresh id, so lookup of the fresh
id in the extended store finds the appended entry. -/
lemma find?_append_fresh (store : Store) (newId : String) (doc : Doc)
    (hfresh : ∀ e ∈ store, (e.1 == newId) = false) :
    (store ++ [(newId, doc)]).find? (fun e => e.1 == newId) =
      some (newId, doc) := by
  rw [List.find?_append]
  have h1 : store.find? (fun e => e.1 == newId) = none :=
    List.find?_eq_none.mpr (fun x hx => by simp [hfresh x hx])
  rw [h1]
  simp [List.find?_cons]

/-- C1: a valid authorized add appends the coerced document and answers 201
with the generated id; getById on that id then answers 200 with exactly the
coerced species/gender/quantity/latitude/longitude/userId and the rendering
of the service-set timestamp (the client payload's entries other than the
six fields, in particular any timestamp, play no part). -/
theorem add_get_round_trip (apiKey : Option String) (k : String)
    (d : Payload) (now : Nat) (newId : String) (store : Store)
    (q : Int) (la lo : Rat)
    (hk : keyBlocked apiKey (some k) = false)
    (hall : ∀ f ∈ required_fields, (d.lookup f).isSome)
    (hq : pyInt ((d.lookup "quantity").getD .vnull) = some q)
    (hq1 : 1 ≤ q)
    (hla : pyFloat ((d.lookup "latitude").getD .vnull) = some la)
    (hlo : pyFloat ((d.lookup "longitude").getD .vnull) = some lo)
    (hg : pyStrip (pyStr ((d.lookup "gender").getD .vnull)) ∈
            (["Male", "Female", "Unknown"] : List String))
    (hid : parseObjectId newId = some newId)
    (hfresh : ∀ e ∈ store, (e.1 == newId) = false) :
    add_observation apiKey (some k) (some d) now newId store =
      (⟨201, addSuccessBody newId⟩,
       store ++ [(newId, mkObservation
          (pyStrip (pyStr ((d.lookup "species").getD .vnull)))
          (pyStrip (pyStr ((d.lookup "gender").getD .vnull)))
          q la lo
          (pyStrip (pyStr ((d.lookup "userId").getD .vnull))) now)]) ∧
    get_observation apiKey (some k) newId
        (store ++ [(newId, mkObservation
          (pyStrip (pyStr ((d.lookup "species").getD .vnull)))
          (pyStrip (pyStr ((d.lookup "gender").getD .vnull)))
          q la lo
          (pyStrip (pyStr ((d.lookup "userId").getD .vnull))) now)]) =
      ⟨200, .obj [("status", J.s "success"),
        ("observation", .obj
          [("_id", J.s newId),
           ("species", J.s (pyStrip (pyStr ((d.lookup "species").getD .vnull)))),
           ("gender", J.s (pyStrip (pyStr ((d.lookup "gender").getD .vnull)))),
           ("quantity", .prim (.vint q)),
           ("latitude", .prim (.vflo la)),
           ("longitude", .prim (.vflo lo)),
           ("userId", J.s (pyStrip (pyStr ((d.lookup "userId").getD .vnull)))),
           ("timestamp", J.s (datetimeIsoformat now ++ "Z"))])]⟩ := by
  refine ⟨add_observation_success apiKey k d now newId store q la lo
            hk hall hq hq1 hla hlo hg, ?_⟩
  have h1 : store.find? (fun e => e.1 == newId) = none :=
    List.find?_eq_none.mpr (fun x hx => by simp [hfresh x hx])
  simp [get_observation, require_api_key, hk, hid, h1, renderObs,
        mkObservation, List.lookup, J.s]

/-- C1 witness: the example payload of the specification, with an extra
client-supplied timestamp entry that the service ignores. -/
theorem add_get_round_trip_witness :
    add_observation (some "s") (some "s")
        (some [("species", .vstr "Deer"), ("gender", .vstr "Male"),
               ("quantity", .vint 2), ("latitude", .vflo ((451 : Rat)/10)),
               ("longitude", .vflo (-((702 : Rat)/10))), ("userId", .vstr "u1"),
               ("timestamp", .vstr "1999-01-01T00:00:00")])
        7 "0123456789abcdef01234567" [] =
      (⟨201, addSuccessBody "0123456789abcdef01234567"⟩,
       [("0123456789abcdef01234567",
         mkObservation "Deer" "Male" 2 ((451 : Rat)/10) (-((702 : Rat)/10)) "u1" 7)]) ∧
    get_observation (some "s") (some "s") "0123456789abcdef01234567"
        [("0123456789abcdef01234567",
          mkObservation "Deer" "Male" 2 ((451 : Rat)/10) (-((702 : Rat)/10)) "u1" 7)] =
      ⟨200, .obj [("status", J.s "success"),
        ("observation", .obj
          [("_id", J.s "0123456789abcdef01234567"),
           ("species", J.s "Deer"),
           ("gender", J.s "Male"),
           ("quantity", .prim (.vint 2)),
           ("latitude", .prim (.vflo ((451 : Rat)/10))),
           ("longitude", .prim (.vflo (-((702 : Rat)/10)))),
           ("userId", J.s "u1"),
           ("timestamp", J.s (datetimeIsoformat 7 ++ "Z"))])]⟩ :=
  add_get_round_trip (some "s") "s"
    [("species", .vstr "Deer"), ("gender", .vstr "Male"),
     ("quantity", .vint 2), ("latitude", .vflo ((451 : Rat)/10)),
     ("longitude", .vflo (-((702 : Rat)/10))), ("userId", .vstr "u1"),
     ("timestamp", .vstr "1999-01-01T00:00:00")]
    7 "0123456789abcdef01234567" [] 2 ((451 : Rat)/10) (-((702 : Rat)/10))
    (by decide) (by decide) rfl (by decide) rfl rfl (by decide) rfl
    (by intro e he; simp at he)

/-- C10: on the success path the persisted document carries exactly the
seven keys species, gender, quantity, latitude, longitude, userId and
timestamp, and its timestamp is the service clock value — whatever further
entries, a client timestamp included, the payload carried. -/
theorem persisted_document_exact_keys (apiKey : Option String) (k : String)
    (d : Payload) (now : Nat) (newId : String) (store : Store)
    (q : Int) (la lo : Rat)
    (hk : keyBlocked apiKey (some k) = false)
    (hall : ∀ f ∈ required_fields, (d.lookup f).isSome)
    (hq : pyInt ((d.lookup "quantity").getD .vnull) = some q)
    (hq1 : 1 ≤ q)
    (hla : pyFloat ((d.lookup "latitude").getD .vnull) = some la)
    (hlo : pyFloat ((d.lookup "longitude").getD .vnull) = some lo)
    (hg : pyStrip (pyStr ((d.lookup "gender").getD .vnull)) ∈
            (["Male", "Female", "Unknown"] : List String)) :
    ∃ doc : Doc,
      (add_observation apiKey (some k) (some d) now newId store).2 =
        store ++ [(newId, doc)] ∧
      doc.map Prod.fst =
        ["species", "gender", "quantity", "latitude", "longitude",
         "userId", "timestamp"] ∧
      doc.lookup "timestamp" = some (.vtime now) := by
  refine ⟨mkObservation
      (pyStrip (pyStr ((d.lookup "species").getD .vnull)))
      (pyStrip (pyStr ((d.lookup "gender").getD .vnull)))
      q la lo
      (pyStrip (pyStr ((d.lookup "userId").getD .vnull))) now, ?_, ?_, ?_⟩
  · rw [add_observation_success apiKey k d now newId store q la lo
          hk hall hq hq1 hla hlo hg]
  · rfl
  · rfl

/-- C10 witness: a payload carrying a client timestamp and an unknown key;
the stored document still has exactly the seven service keys and the
service clock as timestamp. -/
theorem persisted_document_exact_keys_witness :
    ∃ doc : Doc,
      (add_observation (some "s") (some "s")
          (some [("species", .vstr "Deer"), ("gender", .vstr "Male"),
                 ("quantity", .vint 2), ("latitude", .vflo ((451 : Rat)/10)),
                 ("longitude", .vflo (-((702 : Rat)/10))), ("userId", .vstr "u1"),
                 ("timestamp", .vstr "1999-01-01T00:00:00"),
                 ("color", .vstr "brown")])
          7 "0123456789abcdef01234567" []).2 =
        [] ++ [("0123456789abcdef01234567", doc)] ∧
      doc.map Prod.fst =
        ["species", "gender", "quantity", "latitude", "longitude",
         "userId", "timestamp"] ∧
      doc.lookup "timestamp" = some (.vtime 7) :=
  persisted_document_exact_keys (some "s") "s"
    [("species", .vstr "Deer"), ("gender", .vstr "Male"),
     ("quantity", .vint 2), ("latitude", .vflo ((451 : Rat)/10)),
     ("longitude", .vflo (-((702 : Rat)/10))), ("userId", .vstr "u1"),
     ("timestamp", .vstr "1999-01-01T00:00:00"), ("color", .vstr "brown")]
    7 "0123456789abcdef01234567" [] 2 ((451 : Rat)/10) (-((702 : Rat)/10))
    (by decide) (by decide) rfl (by decide) rfl rfl (by decide)

/-- C4: any authorized add whose quantity entry coerces to an integer below
1 is answered with some 400 validation error and writes nothing (the message
depends on which check fires first, but the status is always 400); and the
numeric string "3" as quantity, with the other five fields valid, is
accepted and stored as the integer 3. -/
theorem quantity_coercion :
    (∀ (apiKey : Option String) (k : String) (d : Payload) (now : Nat)
       (newId : String) (store : Store) (qv : Val) (q : Int),
       keyBlocked apiKey (some k) = false →
       d.lookup "quantity" = some qv →
       pyInt qv = some q →
       q < 1 →
       (add_observation apiKey (some k) (some d) now newId store).1.code = 400 ∧
       (add_observation apiKey (some k) (some d) now newId store).2 = store) ∧
    (∀ (apiKey : Option String) (k : String) (now : Nat) (newId : String)
       (store : Store),
       keyBlocked apiKey (some k) = false →
       add_observation apiKey (some k)
           (some [("species", .vstr "Deer"), ("gender", .vstr "Male"),
                  ("quantity", .vstr "3"), ("latitude", .vflo ((451 : Rat)/10)),
                  ("longitude", .vflo (-((702 : Rat)/10))),
                  ("userId", .vstr "u1")])
           now newId store =
         (⟨201, addSuccessBody newId⟩,
          store ++ [(newId, mkObservation "Deer" "Male" 3
             ((451 : Rat)/10) (-((702 : Rat)/10)) "u1" now)])) := by
  constructor
  · intro apiKey k d now newId store qv q hk hqv hq hlt
    have hreq : require_api_key apiKey (some k) = none := by
      simp [require_api_key, hk]
    have hq' : pyInt ((d.lookup "quantity").getD .vnull) = some q := by
      rw [hqv]; exact hq
    simp only [add_observation, hreq]
    repeat' split
    all_goals first
      | exact ⟨rfl, rfl⟩
      | (exfalso; simp_all <;> omega)
  · intro apiKey k now newId store hk
    exact add_observation_success apiKey k
      [("species", .vstr "Deer"), ("gender", .vstr "Male"),
       ("quantity", .vstr "3"), ("latitude", .vflo ((451 : Rat)/10)),
       ("longitude", .vflo (-((702 : Rat)/10))), ("userId", .vstr "u1")]
      now newId store 3 ((451 : Rat)/10) (-((702 : Rat)/10))
      hk (by decide) rfl (by decide) rfl rfl (by decide)

/-- C4 witness: quantity 0 is answered 400 with nothing written; quantity
"3" is accepted and stored as 3. -/
theorem quantity_coercion_witness :
    ((add_observation (some "s") (some "s")
        (some [("species", .vstr "Deer"), ("gender", .vstr "Male"),
               ("quantity", .vint 0), ("latitude", .vflo ((451 : Rat)/10)),
               ("longitude", .vflo (-((702 : Rat)/10))), ("userId", .vstr "u1")])
        7 "0123456789abcdef01234567" []).1.code = 400 ∧
     (add_observation (some "s") (some "s")
        (some [("species", .vstr "Deer"), ("gender", .vstr "Male"),
               ("quantity", .vint 0), ("latitude", .vflo ((451 : Rat)/10)),
               ("longitude", .vflo (-((702 : Rat)/10))), ("userId", .vstr "u1")])
        7 "0123456789abcdef01234567" []).2 = []) ∧
    add_observation (some "s") (some "s")
        (some [("species", .vstr "Deer"), ("gender", .vstr "Male"),
               ("quantity", .vstr "3"), ("latitude", .vflo ((451 : Rat)/10)),
               ("longitude", .vflo (-((702 : Rat)/10))), ("userId", .vstr "u1")])
        7 "0123456789abcdef01234567" [] =
      (⟨201, addSuccessBody "0123456789abcdef01234567"⟩,
       [("0123456789abcdef01234567", mkObservation "Deer" "Male" 3
          ((451 : Rat)/10) (-((702 : Rat)/10)) "u1" 7)]) :=
  ⟨quantity_coercion.1 (some "s") "s"
      [("species", .vstr "Deer"), ("gender", .vstr "Male"),
       ("quantity", .vint 0), ("latitude", .vflo ((451 : Rat)/10)),
       ("longitude", .vflo (-((702 : Rat)/10))), ("userId", .vstr "u1")]
      7 "0123456789abcdef01234567" [] (.vint 0) 0
      (by decide) rfl rfl (by decide),
   quantity_coercion.2 (some "s") "s" 7 "0123456789abcdef01234567" []
      (by decide)⟩

/-- C5: an authorized add carrying all six keys whose trimmed, stringified
gender is outside the enumeration is answered with some 400 validation
error (the gender message, or the type message when a numeric coercion
fails first), and nothing is persisted. -/
theorem gender_validation (apiKey : Option String) (k : String)
    (d : Payload) (now : Nat) (newId : String) (store : Store)
    (hk : keyBlocked apiKey (some k) = false)
    (hall : ∀ f ∈ required_fields, (d.lookup f).isSome)
    (hg : pyStrip (pyStr ((d.lookup "gender").getD .vnull)) ∉
            (["Male", "Female", "Unknown"] : List String)) :
    (add_observation apiKey (some k) (some d) now newId store).1.code = 400 ∧
    (add_observation apiKey (some k) (some d) now newId store).2 = store := by
  have hreq : require_api_key apiKey (some k) = none := by
    simp [require_api_key, hk]
  have hne : d ≠ [] := by
    intro h
    subst h
    have := hall "species" (by simp [required_fields])
    simp at this
  have h2 : required_fields.filter (fun f => (d.lookup f).isNone) = [] := by
    rw [List.filter_eq_nil_iff]
    intro f hf
    have := hall f hf
    cases hopt : d.lookup f <;> simp_all
  simp only [add_observation, hreq]
  repeat' split
  all_goals exact ⟨rfl, rfl⟩

/-- C5 witness: gender "Cat" is rejected with a 400 and nothing stored. -/
theorem gender_validation_witness :
    (add_observation (some "s") (some "s")
        (some [("species", .vstr "Deer"), ("gender", .vstr "Cat"),
               ("quantity", .vint 2), ("latitude", .vflo ((451 : Rat)/10)),
               ("longitude", .vflo (-((702 : Rat)/10))), ("userId", .vstr "u1")])
        7 "0123456789abcdef01234567" []).1.code = 400 ∧
    (add_observation (some "s") (some "s")
        (some [("species", .vstr "Deer"), ("gender", .vstr "Cat"),
               ("quantity", .vint 2), ("latitude", .vflo ((451 : Rat)/10)),
               ("longitude", .vflo (-((702 : Rat)/10))), ("userId", .vstr "u1")])
        7 "0123456789abcdef01234567" []).2 = [] :=
  gender_validation (some "s") "s"
    [("species", .vstr "Deer"), ("gender", .vstr "Cat"),
     ("quantity", .vint 2), ("latitude", .vflo ((451 : Rat)/10)),
     ("longitude", .vflo (-((702 : Rat)/10))), ("userId", .vstr "u1")]
    7 "0123456789abcdef01234567" [] (by decide) (by decide) (by decide)

/-- A document with a datetime timestamp renders to its renderedDoc. -/
lemma renderObs_eq_renderedDoc (id : String) (doc : Doc) (t : Nat)
    (h : doc.lookup "timestamp" = some (.vtime t)) :
    renderObs id doc = some (renderedDoc id doc t) := by
  simp [renderObs, h, renderedDoc]

/-- Rendering a whole store succeeds entrywise when every document carries a
datetime timestamp. -/
lemma mapM_renderObs (store : Store) (tOf : String × Doc → Nat)
    (h : ∀ e ∈ store, e.2.lookup "timestamp" = some (.vtime (tOf e))) :
    store.mapM (fun e => renderObs e.1 e.2) =
      some (store.map (fun e => renderedDoc e.1 e.2 (tOf e))) := by
  induction store with
  | nil => rfl
  | cons e l ih =>
    rw [List.mapM_cons,
        renderObs_eq_renderedDoc e.1 e.2 (tOf e) (h e (List.mem_cons_self e l)),
        ih (fun x hx => h x (List.mem_cons_of_mem e hx))]
    rfl

/-- Looking a key up after a key-preserving value rewrite is the rewrite of
the original lookup. -/
lemma lookup_map_render (doc : Doc) (t : Nat) (key : String) :
    (doc.map (fun kv =>
        (kv.1, if kv.1 = "timestamp"
               then J.s (datetimeIsoformat t ++ "Z")
               else J.prim kv.2))).lookup key =
      (doc.lookup key).map
        (fun v => if key = "timestamp"
                  then J.s (datetimeIsoformat t ++ "Z")
                  else J.prim v) := by
  induction doc with
  | nil => rfl
  | cons kv l ih =>
    rcases kv with ⟨k1, v1⟩
    by_cases hbeq : key = k1
    · subst hbeq
      simp [List.lookup]
    · have hb : (key == k1) = false := beq_eq_false_iff_ne.mpr hbeq
      simp [List.lookup, hb, ih]

/-- C8: with every stored document carrying its service-set datetime,
listAll answers 200 with every entry rendered by renderedDoc; getById on an
entry's identifier answers 200 with exactly the same rendering of that
entry; and the rendering carries the identifier as its canonical string
under key _id and the timestamp as its ISO form with a trailing "Z". -/
theorem rendering_consistent (apiKey : Option String) (k : String)
    (store : Store) (tOf : String × Doc → Nat)
    (hk : keyBlocked apiKey (some k) = false)
    (hts : ∀ e ∈ store, e.2.lookup "timestamp" = some (.vtime (tOf e))) :
    get_observations apiKey (some k) store =
      ⟨200, .obj [("status", J.s "success"),
        ("observations",
         .arr (store.map (fun e => renderedDoc e.1 e.2 (tOf e))))]⟩ ∧
    (∀ e ∈ store, ∀ id : String,
       parseObjectId id = some e.1 →
       store.find? (fun x => x.1 == e.1) = some e →
       get_observation apiKey (some k) id store =
         ⟨200, .obj [("status", J.s "success"),
                     ("observation", renderedDoc e.1 e.2 (tOf e))]⟩) ∧
    (∀ (id : String) (doc : Doc) (t : Nat),
       ∃ fs, renderedDoc id doc t = .obj fs ∧
         fs.lookup "_id" = some (J.s id) ∧
         (doc.lookup "timestamp" = some (.vtime t) →
          fs.lookup "timestamp" = some (J.s (datetimeIsoformat t ++ "Z")))) := by
  have hreq : require_api_key apiKey (some k) = none := by
    simp [require_api_key, hk]
  refine ⟨?_, ?_, ?_⟩
  · have hm := mapM_renderObs store tOf hts
    simp only [get_observations, hreq, hm]
  · intro e he id hpid hfind
    have hr := renderObs_eq_renderedDoc e.1 e.2 (tOf e) (hts e he)
    simp [get_observation, require_api_key, hk, hpid, hfind, hr]
  · intro id doc t
    refine ⟨_, rfl, ?_, ?_⟩
    · simp [renderedDoc, List.lookup]
    · intro hts0
      have hb : (("timestamp" : String) == "_id") = false := by decide
      simp [renderedDoc, List.lookup, hb, lookup_map_render, hts0]

/-- C8 witness: a one-entry store; listAll and getById agree on the
rendering, identifier as string and timestamp as ISO text plus "Z". -/
theorem rendering_consistent_witness :
    get_observations (some "s") (some "s")
        [("0123456789abcdef01234567",
          mkObservation "Deer" "Male" 2 45 (-70) "u1" 5)] =
      ⟨200, .obj [("status", J.s "success"),
        ("observations",
         .arr [renderedDoc "0123456789abcdef01234567"
                 (mkObservation "Deer" "Male" 2 45 (-70) "u1" 5) 5])]⟩ ∧
    get_observation (some "s") (some "s") "0123456789abcdef01234567"
        [("0123456789abcdef01234567",
          mkObservation "Deer" "Male" 2 45 (-70) "u1" 5)] =
      ⟨200, .obj [("status", J.s "success"),
        ("observation", renderedDoc "0123456789abcdef01234567"
           (mkObservation "Deer" "Male" 2 45 (-70) "u1" 5) 5)]⟩ :=
  ⟨(rendering_consistent (some "s") "s"
      [("0123456789abcdef01234567", mkObservation "Deer" "Male" 2 45 (-70) "u1" 5)]
      (fun _ => 5) (by decide)
      (by intro e he
          rw [List.mem_singleton] at he
          subst he
          rfl)).1,
   (rendering_consistent (some "s") "s"
      [("0123456789abcdef01234567", mkObservation "Deer" "Male" 2 45 (-70) "u1" 5)]
      (fun _ => 5) (by decide)
      (by intro e he
          rw [List.mem_singleton] at he
          subst he
          rfl)).2.1
     ("0123456789abcdef01234567", mkObservation "Deer" "Male" 2 45 (-70) "u1" 5)
     (List.mem_singleton.mpr rfl) "0123456789abcdef01234567" rfl rfl⟩

end ObservationsBackend
